import Mathlib

/-!
Verification of the authenticated, rate-limited, cached request pipeline of
the `zwift_api_client` package (auth/session_manager.py, cache/cache_manager.py,
client/base_client.py), via a shallow embedding in Lean.

Modelling conventions:
* JSON-decodable payloads are values of the `Json` inductive below; Python
  `None` (and a JSON `null` payload, which the cache layer treats identically
  to an absent one via `is not None` checks) is modelled by `Option.none` at
  the boundaries.
* The file-system cache directory is an association list from cache-key string
  to file state; a file that cannot be opened or parsed is `CacheFile.corrupt`.
* Clock reads (`time.time()`) are passed in explicitly as `now`; durations are
  exact numbers (Int for the cache/session layers, ℚ for the rate limiter)
  rather than floats.
* Effects of collaborators (network, login, probe, disk write) are supplied
  as explicit oracle arguments, and exceptions are modelled with `Except`:
  a `.error` result of a dispatch means the exception escaped the function.
* `hashlib.md5(...).hexdigest()` is an arbitrary deterministic function of the
  input string; it is taken as a parameter `h : String → String` everywhere.
-/

/-- JSON values as produced by `response.json()` / `json.load`.  JSON `null`
is not a constructor: the Python code only ever observes payloads through
`.get(...)` / `is not None`, under which `null` and "absent" coincide, so both
are modelled as `Option.none` one level up. -/
inductive Json where
  | bool (b : Bool)
  | num (n : Int)
  | str (s : String)
  | arr (elems : List Json)
  | obj (fields : List (String × Json))

/-- Request parameters: a Python dict of string keys and string values.
The dict invariant (no duplicate keys) is carried as a `Nodup` hypothesis
where a theorem needs it. -/
abbrev Params := List (String × String)

/-- Escape of one character inside a JSON string literal (as `json.dumps`
does for the characters that can occur in this pipeline's keys/values). -/
def jsonEscapeChar (c : Char) : String :=
  if c = '\\' then "\\\\"
  else if c = '"' then "\\\""
  else String.singleton c

/-- Escape a whole string for inclusion in a JSON string literal. -/
def jsonEscape (s : String) : String :=
  String.join (s.toList.map jsonEscapeChar)

/-- A JSON string literal: `"..."` with escaping. -/
def jsonQuote (s : String) : String :=
  "\"" ++ jsonEscape s ++ "\""

/-- Boolean key comparison used to sort dict items by key, as
`json.dumps(..., sort_keys=True)` does. -/
def keyLe (a b : String × String) : Bool := decide (a.1 ≤ b.1)

/-- The parameter dict's items sorted by key (the normalisation performed by
`json.dumps(..., sort_keys=True)` in `_generate_cache_key`). -/
def sortParams (ps : Params) : Params :=
  List.mergeSort ps keyLe

/-- `json.dumps` rendering of the params dict with sorted keys. -/
def dumpsParams (ps : Params) : String :=
  "\x7b" ++
    String.intercalate ", "
      ((sortParams ps).map (fun kv => jsonQuote kv.1 ++ ": " ++ jsonQuote kv.2)) ++
  "\x7d"

/-- The string serialised and hashed by `CacheManager._generate_cache_key`:
`json.dumps({'endpoint': endpoint, 'params': params or {}}, sort_keys=True)`
(the outer keys `endpoint`, `params` already appear in sorted order). -/
def cacheString (endpoint : String) (ps : Params) : String :=
  "\x7b\"endpoint\": " ++ jsonQuote endpoint ++ ", \"params\": " ++ dumpsParams ps ++ "\x7d"

/-- `CacheManager._generate_cache_key`: md5 hex digest of the canonical
serialisation.  `h` stands for `lambda s: hashlib.md5(s.encode()).hexdigest()`,
an arbitrary deterministic function of the string. -/
def generate_cache_key (h : String → String) (endpoint : String) (ps : Params) : String :=
  h (cacheString endpoint ps)

/-- The JSON record `CacheManager.set` writes to a cache file
(`{'timestamp', 'endpoint', 'params', 'data', 'metadata'}`).  Every field is
optional because a file parsed by `get`/`cleanup_expired` may have been
written by anything; the code reads fields with `dict.get`, so an absent
field is `none` (`timestamp` then defaults to `0`, `data` to `None`). -/
structure CacheRecord where
  timestamp : Option Int
  endpoint : Option String
  params : Option Params
  data : Option Json
  metadata : Option Json

/-- The state of one cache file: either it fails to open/parse (`corrupt`)
or `json.load` yields a record. -/
inductive CacheFile where
  | corrupt
  | parsed (rec : CacheRecord)

/-- The cache directory: an association list from cache-key string (the file
stem of `<key>.json`) to file state. -/
abbrev Store := List (String × CacheFile)

/-- File-system lookup: the content of `<key>.json`, if that file exists. -/
def lookupStore : Store → String → Option CacheFile
  | [], _ => none
  | (k, f) :: rest, key => if k = key then some f else lookupStore rest key

/-- `Path.unlink` of `<key>.json`: remove every binding for the key. -/
def eraseStore : Store → String → Store
  | [], _ => []
  | (k, f) :: rest, key =>
      if k = key then eraseStore rest key else (k, f) :: eraseStore rest key

/-- `open(<key>.json, 'w')` + `json.dump`: overwrite the file. -/
def setStore (s : Store) (key : String) (f : CacheFile) : Store :=
  (key, f) :: eraseStore s key

/-- `CacheManager.get(endpoint, params, ttl)`: compute the cache key, return
`None` if the file is absent; otherwise read and parse it (any failure is
caught and returns `None`), take `timestamp` with default `0`, and return
`None` when `now - timestamp > ttl`, else the record's `data` field. -/
def CacheManager.get (h : String → String) (store : Store) (endpoint : String)
    (params : Params) (ttl : Int) (now : Int) : Option Json :=
  let cache_key := generate_cache_key h endpoint params
  match lookupStore store cache_key with
  | none => none
  | some CacheFile.corrupt => none
  | some (CacheFile.parsed rec) =>
      let cache_time := rec.timestamp.getD 0
      let age := now - cache_time
      if age > ttl then none else rec.data

/-- `CacheManager.set(endpoint, data, params, metadata)`: write the record
`{timestamp: now, endpoint, params, data, metadata}` to the key's file,
returning `False` (with the store unchanged) if the write raises, `True`
otherwise.  `write_fails` is the I/O oracle for the `open`/`json.dump` call. -/
def CacheManager.set (h : String → String) (store : Store) (endpoint : String)
    (data : Json) (params : Params) (metadata : Option Json) (now : Int)
    (write_fails : Bool) : Bool × Store :=
  let cache_key := generate_cache_key h endpoint params
  if write_fails then (false, store)
  else (true, setStore store cache_key
    (CacheFile.parsed ⟨some now, some endpoint, some params, some data, metadata⟩))

/-- `CacheManager.invalidate(endpoint, params)`: unlink the key's file if it
exists; return `True` whether or not it existed, `False` only when the unlink
raises (`unlink_fails` is that I/O oracle; it is irrelevant when the file
does not exist, since `unlink` is then never called). -/
def CacheManager.invalidate (h : String → String) (store : Store)
    (endpoint : String) (params : Params) (unlink_fails : Bool) : Bool × Store :=
  let cache_key := generate_cache_key h endpoint params
  match lookupStore store cache_key with
  | some _ =>
      if unlink_fails then (false, store) else (true, eraseStore store cache_key)
  | none => (true, store)

/-- `CacheManager.clear_all()`: unlink every `*.json` file in order; return
`True` when the loop finishes.  `fail_at = some i` makes the unlink of the
`i`-th remaining file raise, which aborts the loop with `False`, leaving the
files not yet visited in place. -/
def CacheManager.clear_all (store : Store) (fail_at : Option Nat) : Bool × Store :=
  match fail_at with
  | none => (true, [])
  | some i => if i < store.length then (false, store.drop i) else (true, [])

/-- The condition under which `cleanup_expired` removes a file: it fails to
parse, or its `timestamp` (default `0`) is older than `default_ttl`. -/
def removable (default_ttl : Int) (now : Int) : String × CacheFile → Bool
  | (_, CacheFile.corrupt) => true
  | (_, CacheFile.parsed rec) => decide (now - rec.timestamp.getD 0 > default_ttl)

/-- `CacheManager.cleanup_expired(default_ttl)`: walk every cache file;
delete (and count) those whose age exceeds `default_ttl`, using `0` when the
record has no `timestamp`, and also delete (and count) files that fail to
parse.  Unlinks are modelled as succeeding (the code retries the unlink of a
corrupt file inside the handler and ignores a second failure). -/
def CacheManager.cleanup_expired (store : Store) (default_ttl : Int)
    (now : Int) : Nat × Store :=
  match store with
  | [] => (0, [])
  | (k, f) :: rest =>
      let r := CacheManager.cleanup_expired rest default_ttl now
      if removable default_ttl now (k, f) then (r.1 + 1, r.2) else (r.1, (k, f) :: r.2)

/-- `ZwiftAuthManager.SESSION_EXPIRY`: 6 hours in seconds. -/
def SESSION_EXPIRY : Int := 21600

/-- Result of `_load_cached_session`: no session file, a file that fails to
unpickle (both return `False`), or a loaded `{session, login_time}` blob. -/
inductive LoadResult where
  | noFile
  | corrupt
  | loaded (login_time : Int)
deriving DecidableEq

/-- Result of the validation probe
`session.get('https://zwiftpower.com/api3.php?do=status')`: an HTTP status,
or a raised network error. -/
inductive ProbeResult where
  | status (code : Int)
  | netError
deriving DecidableEq

/-- Result of `_login()` (both strategies folded together, as `get_session`
only observes its boolean). -/
inductive LoginResult where
  | success
  | failure
deriving DecidableEq

/-- The session object `get_session` hands back: the one recovered from the
pickle file, or the one produced by a fresh `_login`. -/
inductive SessionToken where
  | cached
  | fresh
deriving DecidableEq

/-- Outcome of `get_session`: either a session or a raised exception
(`Except.error` carries the exception message), plus how many times
`_login` ran. -/
structure GetSessionResult where
  result : Except String SessionToken
  login_calls : Nat

/-- `ZwiftAuthManager._validate_session` applied to a loaded session:
`False` when `now - login_time > SESSION_EXPIRY`; otherwise the probe must
return status 200, any other status or a raised error meaning invalid. -/
def validate_session (login_time : Int) (now : Int) (probe : ProbeResult) : Bool :=
  if now - login_time > SESSION_EXPIRY then false
  else
    match probe with
    | ProbeResult.status code => code == 200
    | ProbeResult.netError => false

/-- `ZwiftAuthManager.get_session`: raise when credentials are missing; else
reuse the cached session when it loads and validates; else run `_login`
exactly once, returning the fresh session on success and raising on
failure. -/
def get_session (email password : Option String) (load : LoadResult)
    (now : Int) (probe : ProbeResult) (login : LoginResult) : GetSessionResult :=
  if email.isNone || password.isNone then
    ⟨Except.error "Email and password are required for authentication", 0⟩
  else
    let validCached :=
      match load with
      | LoadResult.loaded lt => validate_session lt now probe
      | _ => false
    if validCached then ⟨Except.ok SessionToken.cached, 0⟩
    else
      match login with
      | LoginResult.success => ⟨Except.ok SessionToken.fresh, 1⟩
      | LoginResult.failure =>
          ⟨Except.error "Failed to authenticate with ZwiftPower", 1⟩

/-- The rate limiter's only state: `self.last_request_time`. -/
structure RateLimiterState where
  last_request_time : ℚ
deriving DecidableEq

/-- `BaseAPIClient.min_request_interval` default: 1 second. -/
def min_request_interval : ℚ := 1

/-- `BaseAPIClient._rate_limit`, begun at clock time `now`: sleep for
`min_interval - (now - last_request_time)` when that is positive, then store
the post-sleep clock reading (`now + sleep`, with an ideal clock) as the new
`last_request_time`.  Returns `(sleep_time, new state)`; the call ends at
`now + sleep_time`. -/
def rate_limit (st : RateLimiterState) (now : ℚ) (min_interval : ℚ) :
    ℚ × RateLimiterState :=
  let time_since_last := now - st.last_request_time
  let sleep_time :=
    if time_since_last < min_interval then min_interval - time_since_last else 0
  (sleep_time, ⟨now + sleep_time⟩)

/-- The dict `_make_request` returns: `data`/`error`/`status_code`/
`content_type` keys are present (`some`) or absent (`none`); `cached` is
always present. -/
structure RequestOutcome where
  data : Option Json
  error : Option String
  status_code : Option Int
  cached : Bool
  content_type : Option String

/-- A response object handed back by `session.get`/`session.post` when no
transport exception was raised: its status code, the result of
`response.json()` when that parses (`none` when it raises `ValueError`),
`response.text`, and the `content-type` header if present. -/
structure HttpResponse where
  status_code : Int
  json_body : Option Json
  text : String
  content_type_header : Option String

/-- The network oracle for one dispatch: the send either yields a response
(whose status `raise_for_status` then inspects), raises a
`requests.exceptions.RequestException` (with the status of an attached
response, if any — `none` for pure transport failures), or raises some other
exception. -/
inductive NetResult where
  | response (r : HttpResponse)
  | requestError (msg : String) (resp_status : Option Int)
  | otherException (msg : String)

/-- The authenticator oracle for one dispatch: `get_session()` either
returns a session or raises with a message. -/
inductive AuthResult where
  | session
  | raises (msg : String)

/-- How many times dispatch invoked each collaborator. -/
structure CallCounts where
  rate_limit_calls : Nat
  get_session_calls : Nat
  cache_set_calls : Nat
deriving DecidableEq

/-- What one `_make_request` call produced: the returned dict, or the
exception that escaped it (`Except.error`); the cache directory afterwards;
and the collaborator call counts. -/
structure DispatchResult where
  outcome : Except String RequestOutcome
  store : Store
  counts : CallCounts

/-- `str(e)` of the `requests.exceptions.HTTPError` that `raise_for_status`
raises for a non-success status.  The exact text is internal to `requests`;
only its presence matters to the envelope. -/
def http_error_message (code : Int) : String :=
  toString code ++ " Error"

/-- The metadata dict `_make_request` passes to `CacheManager.set`. -/
def responseMetadata (code : Int) (ctype : String) : Json :=
  Json.obj [("status_code", Json.num code), ("content_type", Json.str ctype)]

/-- `BaseAPIClient._make_request(endpoint, params, method, use_cache,
cache_ttl)`.  The composite cache name is `f"{endpoint}_{method}"`.  If
`use_cache`, a cache read that yields data short-circuits into a
`{data, cached: True, status_code: 200}` envelope before the rate limiter or
authenticator run.  On a miss, `_rate_limit()` then
`auth_manager.get_session()` run before the `try:` block — an exception from
`get_session` therefore escapes.  Inside the `try:`: a raised
`RequestException` (including the `HTTPError` from `raise_for_status`, which
carries its response's status) or other exception becomes an error envelope;
otherwise the body is parsed as JSON (falling back to raw text with the
declared content type) and, for status 200 with `use_cache` (and non-empty
text on the fallback path), written through to the cache, ignoring the write
result. -/
def make_request (h : String → String) (store : Store) (now : Int)
    (endpoint : String) (params : Params) (method : String)
    (use_cache : Bool) (cache_ttl : Int) (auth : AuthResult) (net : NetResult)
    (write_fails : Bool) : DispatchResult :=
  let cache_key := endpoint ++ "_" ++ method
  let cached_data :=
    if use_cache then CacheManager.get h store cache_key params cache_ttl now
    else none
  match cached_data with
  | some d =>
      ⟨Except.ok ⟨some d, none, some 200, true, none⟩, store, ⟨0, 0, 0⟩⟩
  | none =>
      match auth with
      | AuthResult.raises msg => ⟨Except.error msg, store, ⟨1, 1, 0⟩⟩
      | AuthResult.session =>
          match net with
          | NetResult.requestError msg resp_status =>
              ⟨Except.ok ⟨none, some msg, resp_status, false, none⟩, store, ⟨1, 1, 0⟩⟩
          | NetResult.otherException msg =>
              ⟨Except.ok ⟨none, some msg, none, false, none⟩, store, ⟨1, 1, 0⟩⟩
          | NetResult.response r =>
              if 400 ≤ r.status_code then
                ⟨Except.ok ⟨none, some (http_error_message r.status_code),
                    some r.status_code, false, none⟩, store, ⟨1, 1, 0⟩⟩
              else
                match r.json_body with
                | some d =>
                    if use_cache && r.status_code == 200 then
                      let s := CacheManager.set h store cache_key d params
                        (some (responseMetadata r.status_code "json")) now write_fails
                      ⟨Except.ok ⟨some d, none, some r.status_code, false, some "json"⟩,
                        s.2, ⟨1, 1, 1⟩⟩
                    else
                      ⟨Except.ok ⟨some d, none, some r.status_code, false, some "json"⟩,
                        store, ⟨1, 1, 0⟩⟩
                | none =>
                    let ctype := r.content_type_header.getD "text/html"
                    if use_cache && r.status_code == 200 && r.text.length > 0 then
                      let s := CacheManager.set h store cache_key (Json.str r.text) params
                        (some (responseMetadata r.status_code ctype)) now write_fails
                      ⟨Except.ok ⟨some (Json.str r.text), none, some r.status_code,
                          false, some ctype⟩, s.2, ⟨1, 1, 1⟩⟩
                    else
                      ⟨Except.ok ⟨some (Json.str r.text), none, some r.status_code,
                          false, some ctype⟩, store, ⟨1, 1, 0⟩⟩

/-- The payload `_make_request` reports on the success path: the parsed JSON
body, or the raw text. -/
def responsePayload (r : HttpResponse) : Json :=
  match r.json_body with
  | some d => d
  | none => Json.str r.text

/-- The `content_type` the success envelope reports. -/
def responseContentType (r : HttpResponse) : String :=
  match r.json_body with
  | some _ => "json"
  | none => r.content_type_header.getD "text/html"

/-- A payload is non-empty: a non-empty string for raw text, a non-empty
collection for containers; scalars count as non-empty. -/
def Json.nonEmpty : Json → Prop
  | Json.str s => s ≠ ""
  | Json.arr elems => elems ≠ []
  | Json.obj fields => fields ≠ []
  | _ => True

/-- The RequestOutcome invariant of the spec: exactly one of `data` and
`error` is present. -/
def RequestOutcome.wellFormed (o : RequestOutcome) : Prop :=
  (o.data.isSome = true ∧ o.error = none) ∨ (o.data = none ∧ o.error.isSome = true)

theorem keyLe_trans (a b c : String × String) (h₁ : keyLe a b) (h₂ : keyLe b c) : keyLe a c := by
  simp only [keyLe, decide_eq_true_eq] at *
  exact le_trans h₁ h₂

theorem keyLe_total (a b : String × String) : keyLe a b || keyLe b a := by
  simp only [keyLe, Bool.or_eq_true, decide_eq_true_eq]
  exact le_total a.1 b.1

/-- Two permutations of the same parameter dict (whose keys are distinct,
as dict keys are) sort to the same item list. -/
theorem sortParams_perm_eq (p1 p2 : Params) (hperm : List.Perm p1 p2)
    (hnd : (p1.map Prod.fst).Nodup) : sortParams p1 = sortParams p2 := by
  have hperm1 : List.Perm (sortParams p1) p1 := List.mergeSort_perm p1 keyLe
  have hperm2 : List.Perm (sortParams p2) p2 := List.mergeSort_perm p2 keyLe
  have hs12 : List.Perm (sortParams p1) (sortParams p2) :=
    (hperm1.trans hperm).trans hperm2.symm
  have hpair1 : (sortParams p1).Pairwise (fun a b => keyLe a b) :=
    List.sorted_mergeSort keyLe_trans keyLe_total p1
  have hpair2 : (sortParams p2).Pairwise (fun a b => keyLe a b) :=
    List.sorted_mergeSort keyLe_trans keyLe_total p2
  have hnd1 : ((sortParams p1).map Prod.fst).Nodup :=
    ((hperm1.map Prod.fst).nodup_iff).mpr hnd
  have hnd2 : ((sortParams p2).map Prod.fst).Nodup :=
    ((hs12.map Prod.fst).nodup_iff).mp hnd1
  have hne1 : (sortParams p1).Pairwise (fun a b : String × String => a.1 ≠ b.1) :=
    (List.pairwise_map).mp hnd1
  have hne2 : (sortParams p2).Pairwise (fun a b : String × String => a.1 ≠ b.1) :=
    (List.pairwise_map).mp hnd2
  have hlt1 : (sortParams p1).Pairwise (fun a b : String × String => a.1 < b.1) := by
    refine (hpair1.and hne1).imp ?_
    rintro a b ⟨hle, hne⟩
    exact lt_of_le_of_ne (by simpa [keyLe] using hle) hne
  have hlt2 : (sortParams p2).Pairwise (fun a b : String × String => a.1 < b.1) := by
    refine (hpair2.and hne2).imp ?_
    rintro a b ⟨hle, hne⟩
    exact lt_of_le_of_ne (by simpa [keyLe] using hle) hne
  haveI : IsAntisymm (String × String) (fun a b : String × String => a.1 < b.1) :=
    ⟨fun a b h1 h2 => absurd h2 (lt_asymm h1)⟩
  exact List.eq_of_perm_of_sorted hs12 hlt1 hlt2

/-- C3: for every endpoint and every two parameter dicts that are equal as
sets of key/value pairs regardless of insertion order, the computed cache key
is identical: the key is the (deterministic) digest of the endpoint plus the
key-sorted parameters. -/
theorem cache_key_independent_of_insertion_order
    (h : String → String) (endpoint : String) (p1 p2 : Params)
    (hnd1 : (p1.map Prod.fst).Nodup) (hnd2 : (p2.map Prod.fst).Nodup)
    (hset : ∀ kv : String × String, kv ∈ p1 ↔ kv ∈ p2) :
    generate_cache_key h endpoint p1 = generate_cache_key h endpoint p2 := by
  have hperm : List.Perm p1 p2 := by
    refine (List.perm_ext_iff_of_nodup (hnd1.of_map Prod.fst) (hnd2.of_map Prod.fst)).mpr ?_
    exact hset
  unfold generate_cache_key cacheString dumpsParams
  rw [sortParams_perm_eq p1 p2 hperm hnd1]

/-- Witness for C3 at a concrete input: `{"b":"2","a":"1"}` and
`{"a":"1","b":"2"}` yield the same cache key. -/
theorem cache_key_independent_of_insertion_order_witness :
    generate_cache_key id "api3.php" [("b", "2"), ("a", "1")] =
      generate_cache_key id "api3.php" [("a", "1"), ("b", "2")] := by
  exact cache_key_independent_of_insertion_order id "api3.php"
    [("b", "2"), ("a", "1")] [("a", "1"), ("b", "2")]
    (by decide) (by decide)
    (by intro kv; constructor <;> intro hkv <;> simp_all [List.mem_cons] <;> tauto)

/-- Unlinking a key's file removes its binding. -/
theorem lookupStore_eraseStore_self (store : Store) (key : String) :
    lookupStore (eraseStore store key) key = none := by
  induction store with
  | nil => rfl
  | cons kv rest ih =>
      by_cases hk : kv.1 = key
      · simpa [eraseStore, hk] using ih
      · simpa [eraseStore, lookupStore, hk] using ih

/-- `cleanup_expired` returns how many files satisfy `removable` and keeps
exactly the files that do not. -/
theorem cleanup_expired_eq (store : Store) (default_ttl now : Int) :
    CacheManager.cleanup_expired store default_ttl now =
      (store.countP (removable default_ttl now),
        store.filter (fun kv => !removable default_ttl now kv)) := by
  induction store with
  | nil => rfl
  | cons kv rest ih =>
      by_cases hr : removable default_ttl now kv
      · simp [CacheManager.cleanup_expired, List.countP_cons, List.filter_cons, hr, ih]
      · simp [CacheManager.cleanup_expired, List.countP_cons, List.filter_cons, hr, ih]

/-- A non-empty string has positive length. -/
theorem string_length_pos_of_ne_empty (s : String) (h : s ≠ "") : 0 < s.length := by
  cases s with
  | mk data =>
      cases data with
      | nil => exact absurd rfl h
      | cons c cs => simp [String.length]

/-- C6: the Cache Store's `get` fails soft, returning `None` whenever the
entry is absent, whenever its file cannot be read or parsed, and whenever
`now - timestamp` exceeds `ttl`; in particular an entry stamped
`now - (ttl + 1)` is treated as absent. -/
theorem cache_get_fails_soft (h : String → String) (store : Store)
    (endpoint : String) (params : Params) (ttl now : Int) :
    (lookupStore store (generate_cache_key h endpoint params) = none →
      CacheManager.get h store endpoint params ttl now = none) ∧
    (lookupStore store (generate_cache_key h endpoint params) = some CacheFile.corrupt →
      CacheManager.get h store endpoint params ttl now = none) ∧
    (∀ rec : CacheRecord,
      lookupStore store (generate_cache_key h endpoint params) =
          some (CacheFile.parsed rec) →
      now - rec.timestamp.getD 0 > ttl →
      CacheManager.get h store endpoint params ttl now = none) ∧
    (∀ rec : CacheRecord,
      lookupStore store (generate_cache_key h endpoint params) =
          some (CacheFile.parsed rec) →
      rec.timestamp = some (now - (ttl + 1)) →
      CacheManager.get h store endpoint params ttl now = none) := by
  refine ⟨fun hl => ?_, fun hl => ?_, fun rec hl hgt => ?_, fun rec hl hts => ?_⟩
  · simp [CacheManager.get, hl]
  · simp [CacheManager.get, hl]
  · simp only [CacheManager.get, hl]
    rw [if_pos hgt]
  · simp only [CacheManager.get, hl, hts]
    rw [if_pos (by simp)]

/-- Witness for C6: a single entry stamped `now - (ttl + 1)` (here
`ttl = 50`, `now = 100`, timestamp `49`) is reported absent. -/
theorem cache_get_fails_soft_witness :
    CacheManager.get (fun _ => "k")
        [("k", CacheFile.parsed ⟨some 49, none, none, some (Json.num 7), none⟩)]
        "profile" [("id", "42")] 50 100 = none :=
  (cache_get_fails_soft (fun _ => "k")
      [("k", CacheFile.parsed ⟨some 49, none, none, some (Json.num 7), none⟩)]
      "profile" [("id", "42")] 50 100).2.2.2
    ⟨some 49, none, none, some (Json.num 7), none⟩ rfl rfl

/-- C9: `invalidate` and `clear_all` are idempotent and return success on an
already-empty store or for a key with no entry; a `False` return can only
come from the I/O oracle failing — the operations themselves never raise. -/
theorem cache_invalidate_clear_idempotent (h : String → String) (store : Store)
    (endpoint : String) (params : Params) (unlink_fails : Bool)
    (fail_at : Option Nat) :
    (lookupStore store (generate_cache_key h endpoint params) = none →
      CacheManager.invalidate h store endpoint params unlink_fails = (true, store)) ∧
    (CacheManager.invalidate h
        (CacheManager.invalidate h store endpoint params false).2 endpoint params false =
      (true, (CacheManager.invalidate h store endpoint params false).2)) ∧
    (CacheManager.clear_all [] fail_at = (true, [])) ∧
    (CacheManager.clear_all (CacheManager.clear_all store none).2 none = (true, [])) ∧
    ((CacheManager.invalidate h store endpoint params unlink_fails).1 = false →
      unlink_fails = true) ∧
    ((CacheManager.clear_all store fail_at).1 = false → ∃ i, fail_at = some i) := by
  refine ⟨fun hl => ?_, ?_, ?_, ?_, ?_, ?_⟩
  · simp [CacheManager.invalidate, hl]
  · rcases hl : lookupStore store (generate_cache_key h endpoint params) with _ | f
    · simp [CacheManager.invalidate, hl]
    · simp only [CacheManager.invalidate, hl, if_neg Bool.false_ne_true]
      simp [lookupStore_eraseStore_self]
  · rcases fail_at with _ | i
    · rfl
    · simp [CacheManager.clear_all]
  · simp [CacheManager.clear_all]
  · intro hfalse
    by_contra hne
    rcases hl : lookupStore store (generate_cache_key h endpoint params) with _ | f <;>
      simp_all [CacheManager.invalidate]
  · intro hfalse
    rcases hfa : fail_at with _ | i
    · simp [CacheManager.clear_all, hfa] at hfalse
    · exact ⟨i, rfl⟩

/-- Witness for C9: invalidating a key with no entry in an empty store
succeeds and leaves the store empty. -/
theorem cache_invalidate_clear_idempotent_witness :
    CacheManager.invalidate (fun _ => "k") [] "profile" [("id", "42")] false =
      (true, []) :=
  (cache_invalidate_clear_idempotent (fun _ => "k") [] "profile" [("id", "42")]
    false none).1 rfl

/-- C10: a parsed cache record lacking a `timestamp` field is treated as
stamped at the epoch (`0`): `get` reports it expired for any `ttl` smaller
than the current time, and `cleanup_expired` deletes it for any such
`default_ttl`, counting it among the removed entries. -/
theorem missing_timestamp_treated_as_epoch (h : String → String) (store : Store)
    (endpoint : String) (params : Params) (ttl now default_ttl : Int)
    (rec : CacheRecord) (key : String) :
    (lookupStore store (generate_cache_key h endpoint params) =
        some (CacheFile.parsed rec) →
      rec.timestamp = none → ttl < now →
      CacheManager.get h store endpoint params ttl now = none) ∧
    (rec.timestamp = none → default_ttl < now →
      (key, CacheFile.parsed rec) ∈ store →
      (key, CacheFile.parsed rec) ∉
          (CacheManager.cleanup_expired store default_ttl now).2 ∧
      (CacheManager.cleanup_expired store default_ttl now).1 =
          store.countP (removable default_ttl now) ∧
      removable default_ttl now (key, CacheFile.parsed rec) = true) := by
  constructor
  · intro hl hts hlt
    simp only [CacheManager.get, hl, hts]
    rw [if_pos (by simp [hts]; omega)]
  · intro hts hlt hmem
    have hrem : removable default_ttl now (key, CacheFile.parsed rec) = true := by
      simp [removable, hts]
      omega
    refine ⟨?_, ?_, hrem⟩
    · rw [cleanup_expired_eq]
      intro hmem'
      have := (List.mem_filter.mp hmem').2
      simp [hrem] at this
    · rw [cleanup_expired_eq]

/-- Witness for C10: a single entry with no timestamp is expired for `get`
(`ttl = 3600 < now = 4000`) and removed (and counted) by the sweep. -/
theorem missing_timestamp_treated_as_epoch_witness :
    CacheManager.get (fun _ => "k")
        [("k", CacheFile.parsed ⟨none, none, none, some (Json.num 7), none⟩)]
        "profile" [("id", "42")] 3600 4000 = none ∧
    ("k", CacheFile.parsed ⟨none, none, none, some (Json.num 7), none⟩) ∉
      (CacheManager.cleanup_expired
        [("k", CacheFile.parsed ⟨none, none, none, some (Json.num 7), none⟩)]
        3600 4000).2 := by
  have h1 := (missing_timestamp_treated_as_epoch (fun _ => "k")
      [("k", CacheFile.parsed ⟨none, none, none, some (Json.num 7), none⟩)]
      "profile" [("id", "42")] 3600 4000 3600
      ⟨none, none, none, some (Json.num 7), none⟩ "k")
  exact ⟨h1.1 rfl rfl (by omega),
    (h1.2 rfl (by omega) (by simp)).1⟩

/-- C4: with credentials present and a loaded persisted session, a session
whose age is within the 21600-second expiry window and whose probe returns
status 200 is reused with no login; an over-age session or a failed probe
(non-200 status or raised network error) triggers exactly one fresh login. -/
theorem session_reuse_vs_refresh (email password : String) (lt now : Int)
    (probe : ProbeResult) (login : LoginResult) :
    (now - lt ≤ SESSION_EXPIRY → probe = ProbeResult.status 200 →
      get_session (some email) (some password) (LoadResult.loaded lt) now probe login =
        ⟨Except.ok SessionToken.cached, 0⟩) ∧
    (now - lt > SESSION_EXPIRY ∨ probe ≠ ProbeResult.status 200 →
      (get_session (some email) (some password) (LoadResult.loaded lt) now probe
          login).login_calls = 1) := by
  constructor
  · intro hage hprobe
    subst hprobe
    simp [get_session, validate_session, not_lt.mpr hage]
  · intro hinv
    have hval : validate_session lt now probe = false := by
      rcases hinv with hage | hprobe
      · simp [validate_session, hage]
      · unfold validate_session
        rcases hp : probe with code | _
        · have hcode : code ≠ 200 := by
            intro hc
            exact hprobe (by rw [hp, hc])
          simp [hcode]
        · simp
    rcases login with _ | _ <;> simp [get_session, hval]

/-- Witness for C4: an 8-hour-old session (login_time 0, now 28800) with a
passing probe still triggers exactly one fresh login. -/
theorem session_reuse_vs_refresh_witness :
    (get_session (some "user@example.com") (some "pw") (LoadResult.loaded 0) 28800
        (ProbeResult.status 200) LoginResult.success).login_calls = 1 :=
  (session_reuse_vs_refresh "user@example.com" "pw" 0 28800
      (ProbeResult.status 200) LoginResult.success).2 (Or.inl (by decide))

/-- The sleep `_rate_limit` performs is never negative. -/
theorem rate_limit_sleep_nonneg (st : RateLimiterState) (now min_interval : ℚ) :
    0 ≤ (rate_limit st now min_interval).1 := by
  unfold rate_limit
  dsimp only
  split
  · linarith
  · linarith

/-- Every `_rate_limit` call ends no earlier than `min_interval` after the
stored `last_request_time`. -/
theorem rate_limit_end_ge (st : RateLimiterState) (now min_interval : ℚ) :
    st.last_request_time + min_interval ≤ now + (rate_limit st now min_interval).1 := by
  unfold rate_limit
  dsimp only
  split
  · linarith
  · linarith

/-- C8: for two consecutive `_rate_limit` calls (the second starting no
earlier than the first ended), the second ends at least `min_interval` after
the first ended, so the pair spans at least `min_interval` in total; and the
state retained after a call is exactly the time at which that call ended. -/
theorem throttle_min_spacing (st : RateLimiterState) (t1 t2 min_interval : ℚ)
    (_hm : 0 ≤ min_interval)
    (_hseq : t1 + (rate_limit st t1 min_interval).1 ≤ t2) :
    (t1 + (rate_limit st t1 min_interval).1) + min_interval ≤
      t2 + (rate_limit (rate_limit st t1 min_interval).2 t2 min_interval).1 ∧
    t1 + min_interval ≤
      t2 + (rate_limit (rate_limit st t1 min_interval).2 t2 min_interval).1 ∧
    (rate_limit st t1 min_interval).2.last_request_time =
      t1 + (rate_limit st t1 min_interval).1 := by
  have hstate : (rate_limit st t1 min_interval).2.last_request_time =
      t1 + (rate_limit st t1 min_interval).1 := rfl
  have hend := rate_limit_end_ge (rate_limit st t1 min_interval).2 t2 min_interval
  rw [hstate] at hend
  have hs1 := rate_limit_sleep_nonneg st t1 min_interval
  exact ⟨hend, by linarith, hstate⟩

/-- Witness for C8: `last_request_time = 0`, `min_interval = 1`; a call at
`t1 = 5` does not sleep, a second call at `t2 = 5` sleeps `1`, ending at `6`,
one full interval after the first ended. -/
theorem throttle_min_spacing_witness :
    (5 + (rate_limit ⟨0⟩ 5 1).1) + 1 ≤
      5 + (rate_limit (rate_limit ⟨0⟩ 5 1).2 5 1).1 ∧
    5 + 1 ≤ 5 + (rate_limit (rate_limit ⟨0⟩ 5 1).2 5 1).1 ∧
    (rate_limit ⟨0⟩ 5 1).2.last_request_time = 5 + (rate_limit ⟨0⟩ 5 1).1 :=
  throttle_min_spacing ⟨0⟩ 5 5 1 (by norm_num)
    (by norm_num [rate_limit])

/-- C2: when `use_cache` is set and the Cache Store holds fresh data for the
composite key, dispatch returns `{data, cached: True, status_code: 200}`
immediately, invoking neither the rate limiter nor the authenticator (all
collaborator call counts are zero) and leaving the store untouched. -/
theorem dispatch_cache_hit_bypasses_collaborators (h : String → String)
    (store : Store) (now : Int) (endpoint : String) (params : Params)
    (method : String) (cache_ttl : Int) (auth : AuthResult) (net : NetResult)
    (write_fails : Bool) (d : Json)
    (hhit : CacheManager.get h store (endpoint ++ "_" ++ method) params
        cache_ttl now = some d) :
    make_request h store now endpoint params method true cache_ttl auth net
        write_fails =
      ⟨Except.ok ⟨some d, none, some 200, true, none⟩, store, ⟨0, 0, 0⟩⟩ := by
  unfold make_request
  simp [hhit]

/-- Witness for C2: a concrete store holding a fresh entry under the
composite key (constant hash) produces the cache-hit envelope. -/
theorem dispatch_cache_hit_bypasses_collaborators_witness :
    make_request (fun _ => "k")
        [("k", CacheFile.parsed ⟨some 0, none, none, some (Json.num 7), none⟩)]
        100 "profile" [("id", "42")] "GET" true 3600 AuthResult.session
        (NetResult.requestError "unreached" none) false =
      ⟨Except.ok ⟨some (Json.num 7), none, some 200, true, none⟩,
        [("k", CacheFile.parsed ⟨some 0, none, none, some (Json.num 7), none⟩)],
        ⟨0, 0, 0⟩⟩ :=
  dispatch_cache_hit_bypasses_collaborators (fun _ => "k")
    [("k", CacheFile.parsed ⟨some 0, none, none, some (Json.num 7), none⟩)]
    100 "profile" [("id", "42")] "GET" 3600 AuthResult.session
    (NetResult.requestError "unreached" none) false (Json.num 7) rfl

/-- C1 counterexample: on a cache miss with the authenticator unable to
obtain a session (here: missing credentials), `_make_request` does not
return an outcome envelope — the exception raised by `get_session()`, which
is called outside the `try:` block, escapes the dispatch boundary. -/
theorem dispatch_auth_exception_escapes :
    (make_request (fun _ => "k") [] 0 "api3.php" [] "GET" true 3600
        (AuthResult.raises "Email and password are required for authentication")
        (NetResult.requestError "unreached" none) false).outcome =
      Except.error "Email and password are required for authentication" := rfl

/-- C1 (amended): failures arising while issuing the HTTP request (transport
errors, non-success statuses, unexpected exceptions) are caught and returned
as error envelopes, but an authenticator failure is raised past the dispatch
boundary: `get_session()` runs before the `try:` block, so its exception
escapes with its message intact. -/
theorem dispatch_failure_paths (h : String → String) (store : Store)
    (now : Int) (endpoint : String) (params : Params) (method : String)
    (use_cache : Bool) (cache_ttl : Int) (auth_msg err_msg other_msg : String)
    (resp_status : Option Int) (net : NetResult) (write_fails : Bool)
    (hmiss : use_cache = true →
      CacheManager.get h store (endpoint ++ "_" ++ method) params cache_ttl now = none) :
    (make_request h store now endpoint params method use_cache cache_ttl
        (AuthResult.raises auth_msg) net write_fails).outcome =
      Except.error auth_msg ∧
    (make_request h store now endpoint params method use_cache cache_ttl
        AuthResult.session (NetResult.requestError err_msg resp_status)
        write_fails).outcome =
      Except.ok ⟨none, some err_msg, resp_status, false, none⟩ ∧
    (make_request h store now endpoint params method use_cache cache_ttl
        AuthResult.session (NetResult.otherException other_msg)
        write_fails).outcome =
      Except.ok ⟨none, some other_msg, none, false, none⟩ := by
  rcases use_cache with _ | _
  · refine ⟨?_, ?_, ?_⟩ <;> simp [make_request]
  · have hm := hmiss rfl
    refine ⟨?_, ?_, ?_⟩ <;> simp [make_request, hm]

/-- Witness for C1 (amended): on an empty store, the auth exception escapes
while a transport error is returned as an envelope. -/
theorem dispatch_failure_paths_witness :
    (make_request (fun _ => "k") [] 0 "api3.php" [] "GET" true 3600
        (AuthResult.raises "Failed to authenticate with ZwiftPower")
        (NetResult.requestError "timeout" none) false).outcome =
      Except.error "Failed to authenticate with ZwiftPower" ∧
    (make_request (fun _ => "k") [] 0 "api3.php" [] "GET" true 3600
        AuthResult.session (NetResult.requestError "timeout" none)
        false).outcome =
      Except.ok ⟨none, some "timeout", none, false, none⟩ ∧
    (make_request (fun _ => "k") [] 0 "api3.php" [] "GET" true 3600
        AuthResult.session (NetResult.otherException "boom") false).outcome =
      Except.ok ⟨none, some "boom", none, false, none⟩ :=
  dispatch_failure_paths (fun _ => "k") [] 0 "api3.php" [] "GET" true 3600
    "Failed to authenticate with ZwiftPower" "timeout" "boom" none
    (NetResult.requestError "timeout" none) false (fun _ => rfl)

/-- C5: on a cache miss whose HTTP response has status 200, with `use_cache`
set and a non-empty payload, dispatch performs exactly one cache write
regardless of content type, and the returned envelope is the same success
envelope whether or not that write fails. -/
theorem dispatch_success_write_through (h : String → String) (store : Store)
    (now : Int) (endpoint : String) (params : Params) (method : String)
    (cache_ttl : Int) (r : HttpResponse) (write_fails : Bool)
    (hmiss : CacheManager.get h store (endpoint ++ "_" ++ method) params
        cache_ttl now = none)
    (hst : r.status_code = 200)
    (hne : (responsePayload r).nonEmpty) :
    (make_request h store now endpoint params method true cache_ttl
        AuthResult.session (NetResult.response r) write_fails).counts.cache_set_calls
      = 1 ∧
    (make_request h store now endpoint params method true cache_ttl
        AuthResult.session (NetResult.response r) write_fails).outcome =
      Except.ok ⟨some (responsePayload r), none, some 200, false,
        some (responseContentType r)⟩ := by
  rcases hr : r.json_body with _ | d
  · have htext : r.text ≠ "" := by
      simpa [responsePayload, hr, Json.nonEmpty] using hne
    have hlen : 0 < r.text.length := string_length_pos_of_ne_empty r.text htext
    constructor <;>
      simp [make_request, hmiss, hst, hr, hlen, responsePayload, responseContentType,
        CacheManager.set]
  · constructor <;>
      simp [make_request, hmiss, hst, hr, responsePayload, responseContentType,
        CacheManager.set]

/-- Witness for C5: a JSON 200 response on an empty store writes the cache
once and returns the success envelope even though the write fails. -/
theorem dispatch_success_write_through_witness :
    (make_request (fun _ => "k") [] 100 "profile" [("id", "42")] "GET" true 3600
        AuthResult.session
        (NetResult.response ⟨200, some (Json.num 7), "7", none⟩)
        true).counts.cache_set_calls = 1 ∧
    (make_request (fun _ => "k") [] 100 "profile" [("id", "42")] "GET" true 3600
        AuthResult.session
        (NetResult.response ⟨200, some (Json.num 7), "7", none⟩)
        true).outcome =
      Except.ok ⟨some (responsePayload ⟨200, some (Json.num 7), "7", none⟩),
        none, some 200, false,
        some (responseContentType ⟨200, some (Json.num 7), "7", none⟩)⟩ :=
  dispatch_success_write_through (fun _ => "k") [] 100 "profile" [("id", "42")]
    "GET" 3600 ⟨200, some (Json.num 7), "7", none⟩ true rfl rfl trivial

/-- C7: every outcome envelope a dispatch call actually returns (as opposed
to an exception escaping it) has exactly one of `data` and `error` present:
success paths carry `data` and no `error`, failure paths carry `error` and
no `data`. -/
theorem dispatch_outcome_well_formed (h : String → String) (store : Store)
    (now : Int) (endpoint : String) (params : Params) (method : String)
    (use_cache : Bool) (cache_ttl : Int) (auth : AuthResult) (net : NetResult)
    (write_fails : Bool) (o : RequestOutcome)
    (hok : (make_request h store now endpoint params method use_cache cache_ttl
        auth net write_fails).outcome = Except.ok o) :
    o.wellFormed := by
  rcases hc : (if use_cache = true then
      CacheManager.get h store (endpoint ++ "_" ++ method) params cache_ttl now
    else none) with _ | d
  · rcases auth with _ | amsg
    · rcases net with r | ⟨emsg, st⟩ | omsg
      · rcases hj : r.json_body with _ | d
        · simp only [make_request, hc, hj] at hok
          split at hok
          · simp only [Except.ok.injEq] at hok
            subst hok
            exact Or.inr ⟨rfl, rfl⟩
          · split at hok
            · simp only [Except.ok.injEq] at hok
              subst hok
              exact Or.inl ⟨rfl, rfl⟩
            · simp only [Except.ok.injEq] at hok
              subst hok
              exact Or.inl ⟨rfl, rfl⟩
        · simp only [make_request, hc, hj] at hok
          split at hok
          · simp only [Except.ok.injEq] at hok
            subst hok
            exact Or.inr ⟨rfl, rfl⟩
          · split at hok
            · simp only [Except.ok.injEq] at hok
              subst hok
              exact Or.inl ⟨rfl, rfl⟩
            · simp only [Except.ok.injEq] at hok
              subst hok
              exact Or.inl ⟨rfl, rfl⟩
      · simp only [make_request, hc, Except.ok.injEq] at hok
        subst hok
        exact Or.inr ⟨rfl, rfl⟩
      · simp only [make_request, hc, Except.ok.injEq] at hok
        subst hok
        exact Or.inr ⟨rfl, rfl⟩
    · simp [make_request, hc] at hok
  · simp only [make_request, hc, Except.ok.injEq] at hok
    subst hok
    exact Or.inl ⟨rfl, rfl⟩

/-- Witness for C7: the envelope returned for a transport error on an empty
store is well-formed. -/
theorem dispatch_outcome_well_formed_witness :
    RequestOutcome.wellFormed ⟨none, some "timeout", none, false, none⟩ :=
  dispatch_outcome_well_formed (fun _ => "k") [] 0 "api3.php" [] "GET" false 0
    AuthResult.session (NetResult.requestError "timeout" none) false
    ⟨none, some "timeout", none, false, none⟩ rfl
